import Mathlib

/-!
Verification of `scripts/test-advanced.py` (`PrometheusAuthTester`), a sequential
Prometheus authentication probe.  The script is embedded shallowly:

* The network is an oracle.  Each HTTP GET the script issues is answered by an
  `HttpResult`: either a transport-level exception (`requests.exceptions.RequestException`,
  carrying its message) or a wire response carrying the HTTP status code, the raw
  body text, and the result of attempting `response.json()` on that body
  (`none` models a `json.JSONDecodeError`).
* `PrometheusAuthTester` instance state (`base_url`, `verbose`, `tests_passed`,
  `tests_failed`) becomes an explicit record threaded through every method,
  extended with `output`, the list of strings passed to `print` in order.
* Each method of the class becomes a function from the responses it consumes and
  the current state to the new state.  `run_all_tests` additionally consumes the
  environment (`String → Option String`, embedding `os.environ.get`).
-/

/-- A JSON value, as produced by `response.json()`. -/
inductive JValue where
  | null : JValue
  | bool : Bool → JValue
  | num : Int → JValue
  | str : String → JValue
  | arr : List JValue → JValue
  | obj : List (String × JValue) → JValue

/-- The wire-level result of one HTTP GET, as observed through the `requests`
library: either a raised `RequestException` (with message), or a response with
its status code, body text, and the outcome of JSON-parsing the body
(`none` when `response.json()` raises `JSONDecodeError`). -/
inductive HttpResult where
  | exn : String → HttpResult
  | resp : Nat → String → Option JValue → HttpResult

/-- The network oracle: the response to the k-th request the script issues. -/
def Net : Type := Nat → HttpResult

/-- The environment: `os.environ.get` for the variable names the script reads. -/
def Env : Type := String → Option String

/-- The third component of `_make_request`'s returned tuple: either parsed
structured data (`response.json()` succeeded) or raw text (`response.text`
or the exception message). -/
inductive Body where
  | data : JValue → Body
  | text : String → Body

/-- The tuple `(success, http_code, data)` returned by `_make_request`. -/
structure RequestOutcome where
  succeeded : Bool
  httpStatus : Nat
  body : Body

/-- `requests.auth.HTTPBasicAuth(username, password)`. -/
structure HTTPBasicAuth where
  username : String
  password : String

/-- The state of a `PrometheusAuthTester` instance (lines 26–30), plus the
`output` log of every string passed to `print`, in order. -/
structure TesterState where
  base_url : String
  verbose : Bool
  tests_passed : Nat
  tests_failed : Nat
  output : List String

/-- One `print(s)` call: appends `s` to the output log. -/
def print_line (st : TesterState) (s : String) : TesterState :=
  { st with output := st.output ++ [s] }

/-- Python's `"c" * n` separator strings. -/
def repeat_char (c : Char) (n : Nat) : String :=
  String.mk (List.replicate n c)

/-- Python's `s.rstrip("/")`: remove every trailing `/` character. -/
def rstrip_slash (s : String) : String :=
  String.mk ((s.data.reverse.dropWhile (fun c => c == '/')).reverse)

/-- `PrometheusAuthTester.__init__` (lines 26–30): strips trailing slashes from
the base URL and zeroes both counters. -/
def init_tester (base_url : String) (verbose : Bool) : TesterState :=
  { base_url := rstrip_slash base_url
    verbose := verbose
    tests_passed := 0
    tests_failed := 0
    output := [] }

/-- The URL built on line 52: `f"{self.base_url}{endpoint}"`. -/
def request_url (st : TesterState) (endpoint : String) : String :=
  st.base_url ++ endpoint

/-- `PrometheusAuthTester._print_result` (lines 32–42): prints a PASSED/FAILED
line, increments the corresponding counter, and prints the details line when
`details` is non-empty and verbosity is on. -/
def _print_result (st : TesterState) (test_name : String) (success : Bool)
    (details : String) : TesterState :=
  let st :=
    if success then
      { print_line st s!"  ✅ PASSED - {test_name}" with
          tests_passed := st.tests_passed + 1 }
    else
      { print_line st s!"  ❌ FAILED - {test_name}" with
          tests_failed := st.tests_failed + 1 }
  if details != "" && st.verbose then
    print_line st s!"     Details: {details}"
  else
    st

/-- `PrometheusAuthTester._make_request` (lines 44–74).  The GET on lines 55–62
is answered by the oracle value `r`; `url`, `params`, `headers` and `auth`
describe the wire request it answers and do not affect the classification.
On status 200 with a parseable JSON body, returns `(True, 200, data)`; on
status 200 with an unparseable body, `(True, 200, response.text)`; on any other
status, `(False, status, response.text)`; on a `RequestException`,
`(False, 0, str(e))`. -/
def _make_request (base_url endpoint : String)
    (params headers : List (String × String)) (auth : Option HTTPBasicAuth)
    (r : HttpResult) : RequestOutcome :=
  let _url := base_url ++ endpoint
  match r with
  | HttpResult.exn e => { succeeded := false, httpStatus := 0, body := Body.text e }
  | HttpResult.resp status text parsed =>
    if status == 200 then
      match parsed with
      | some data => { succeeded := true, httpStatus := status, body := Body.data data }
      | none => { succeeded := true, httpStatus := status, body := Body.text text }
    else
      { succeeded := false, httpStatus := status, body := Body.text text }

/-- `PrometheusAuthTester.test_no_auth` (lines 76–93): probes the query,
metrics, and health endpoints without credentials, recording one assertion
per probe.  `r1 r2 r3` are the oracle answers to its three requests. -/
def test_no_auth (r1 r2 r3 : HttpResult) (st : TesterState) : TesterState :=
  let st := print_line st "\n1️⃣  No Authentication Test"
  let st := print_line st (repeat_char '-' 30)
  let o := _make_request st.base_url "/api/v1/query" [("query", "up")] [] none r1
  let success := o.succeeded
  let code := o.httpStatus
  let st := _print_result st "Query without auth" success s!"HTTP {code}"
  let o := _make_request st.base_url "/metrics" [] [] none r2
  let success := o.succeeded
  let code := o.httpStatus
  let st := _print_result st "Metrics endpoint" success s!"HTTP {code}"
  let o := _make_request st.base_url "/-/healthy" [] [] none r3
  let success := o.succeeded
  let code := o.httpStatus
  let st := _print_result st "Health endpoint" success s!"HTTP {code}"
  st

/-- `PrometheusAuthTester.test_bearer_token` (lines 95–114): one probe with the
caller-supplied token, one with the literal invalid token.  The second
assertion records `expected = success if code == 200 else not success`
(line 113). -/
def test_bearer_token (token : String) (r1 r2 : HttpResult)
    (st : TesterState) : TesterState :=
  let st := print_line st "\n2️⃣  Bearer Token Authentication Test"
  let st := print_line st (repeat_char '-' 40)
  let headers := [("Authorization", s!"Bearer {token}")]
  let o := _make_request st.base_url "/api/v1/query" [("query", "up")] headers none r1
  let success := o.succeeded
  let code := o.httpStatus
  let st := _print_result st "Valid bearer token" success s!"HTTP {code}"
  let headers := [("Authorization", "Bearer invalid-token-12345")]
  let o := _make_request st.base_url "/api/v1/query" [("query", "up")] headers none r2
  let success := o.succeeded
  let code := o.httpStatus
  let expected := if code == 200 then success else !success
  let st := _print_result st "Invalid bearer token handling" expected s!"HTTP {code}"
  st

/-- `PrometheusAuthTester.test_basic_auth` (lines 116–135): one probe with the
caller-supplied credentials, one with the literal wrong pair; the second
assertion uses the same conditional expectation as the bearer group
(line 134). -/
def test_basic_auth (username password : String) (r1 r2 : HttpResult)
    (st : TesterState) : TesterState :=
  let st := print_line st "\n3️⃣  Basic Authentication Test"
  let st := print_line st (repeat_char '-' 35)
  let auth := some (HTTPBasicAuth.mk username password)
  let o := _make_request st.base_url "/api/v1/query" [("query", "up")] [] auth r1
  let success := o.succeeded
  let code := o.httpStatus
  let st := _print_result st "Valid credentials" success s!"HTTP {code}"
  let auth := some (HTTPBasicAuth.mk "wronguser" "wrongpass")
  let o := _make_request st.base_url "/api/v1/query" [("query", "up")] [] auth r2
  let success := o.succeeded
  let code := o.httpStatus
  let expected := if code == 200 then success else !success
  let st := _print_result st "Invalid credentials handling" expected s!"HTTP {code}"
  st

/-- `PrometheusAuthTester.test_api_token` (lines 137–156): one probe with the
caller-supplied custom-header token, one with the literal invalid token; the
second assertion uses the same conditional expectation (line 155). -/
def test_api_token (api_token : String) (r1 r2 : HttpResult)
    (st : TesterState) : TesterState :=
  let st := print_line st "\n4️⃣  API Token Authentication Test"
  let st := print_line st (repeat_char '-' 37)
  let headers := [("X-API-Token", api_token)]
  let o := _make_request st.base_url "/api/v1/query" [("query", "up")] headers none r1
  let success := o.succeeded
  let code := o.httpStatus
  let st := _print_result st "Valid API token" success s!"HTTP {code}"
  let headers := [("X-API-Token", "invalid-api-token")]
  let o := _make_request st.base_url "/api/v1/query" [("query", "up")] headers none r2
  let success := o.succeeded
  let code := o.httpStatus
  let expected := if code == 200 then success else !success
  let st := _print_result st "Invalid API token handling" expected s!"HTTP {code}"
  st

/-- `dict` field lookup: Python's `d[k]` / `d.get(k)` on the first matching key. -/
def jlookup (fields : List (String × JValue)) (k : String) : Option JValue :=
  match fields with
  | [] => none
  | (k2, v) :: rest => if k2 == k then some v else jlookup rest k

/-- `isinstance(data, dict)` on a `_make_request` body. -/
def body_is_dict (b : Body) : Bool :=
  match b with
  | Body.data (JValue.obj _) => true
  | _ => false

/-- `data.get(k)` on a `_make_request` body known to be a dict
(`none` when the body is not a dict or the key is absent). -/
def body_get (b : Body) (k : String) : Option JValue :=
  match b with
  | Body.data (JValue.obj fields) => jlookup fields k
  | _ => none

/-- `data.get("status") == "success"` (line 177). -/
def body_status_is_success (b : Body) : Bool :=
  match body_get b "status" with
  | some (JValue.str s) => s == "success"
  | _ => false

/-- Python `v.get(k, default)`: when `v` is a dict, the value under `k` (or
the default when the key is absent); when `v` is any other JSON value, a raised
`AttributeError` (only dicts have a `.get` method). -/
def py_get (v : JValue) (k : String) (dflt : JValue) : Except String JValue :=
  match v with
  | JValue.obj fields =>
    match jlookup fields k with
    | some w => Except.ok w
    | none => Except.ok dflt
  | _ => Except.error "AttributeError: object has no attribute get"

/-- Python `len(v)` on a JSON value: entry count of a list, character count of
a string, key count of a dict (field-list length; JSON objects from
`response.json()` have unique keys), and a raised `TypeError` on null, booleans
and numbers, which have no length. -/
def py_len (v : JValue) : Except String Nat :=
  match v with
  | JValue.arr xs => Except.ok xs.length
  | JValue.str s => Except.ok s.length
  | JValue.obj fields => Except.ok fields.length
  | _ => Except.error "TypeError: object has no len"

/-- `len(data.get("data", {}).get("result", []))` (line 178).  The outer `.get`
never raises in the guarded use (line 177 ensures `data` is a dict); the inner
`.get` raises `AttributeError` when the value under "data" is not a dict, and
`len` raises `TypeError` when the result value is not sized.  Either raise
propagates out of the sample-query loop uncaught. -/
def result_count_of (b : Body) : Except String Nat :=
  match b with
  | Body.data d => do
    let inner ← py_get d "data" (JValue.obj [])
    let result ← py_get inner "result" (JValue.arr [])
    py_len result
  | Body.text _ => Except.error "AttributeError: object has no attribute get"

/-- The result of a statement block that may raise: normal completion with the
new instance state, or an uncaught Python exception carrying its message and
the instance state at the raise point. -/
inductive RunResult where
  | ok : TesterState → RunResult
  | exn : String → TesterState → RunResult

/-- The state reached by a block, at normal completion or at the raise. -/
def RunResult.state : RunResult → TesterState
  | RunResult.ok st => st
  | RunResult.exn _ st => st

/-- The result of `run_all_tests` (and hence of the process): normal
completion with the final state and the returned boolean, or an uncaught
exception (a traceback) with the state at the raise point. -/
inductive RunOutcome where
  | ok : TesterState → Bool → RunOutcome
  | exn : String → TesterState → RunOutcome

/-- The instance state at the end of a run (final or at the raise). -/
def RunOutcome.state : RunOutcome → TesterState
  | RunOutcome.ok st _ => st
  | RunOutcome.exn _ st => st

/-- The value `run_all_tests` returned, or `none` when it raised instead. -/
def RunOutcome.returned : RunOutcome → Option Bool
  | RunOutcome.ok _ b => some b
  | RunOutcome.exn _ _ => none

/-- The fixed query list of `test_query_samples` (lines 163–171). -/
def queries : List (String × String) :=
  [("up", "Target status"),
   ("prometheus_build_info", "Prometheus build info"),
   ("rate(prometheus_http_requests_total[5m])", "HTTP request rate"),
   ("histogram_quantile(0.95, prometheus_http_request_duration_seconds_bucket)",
    "95th percentile latency")]

/-- The `for query, description in queries:` loop of `test_query_samples`
(lines 173–181); `i` indexes the oracle for the next request issued.  When the
line-178 expression raises (`result_count_of` errors), the exception aborts
the loop before `_print_result` runs: no assertion is recorded for that query
and the remaining queries are never issued. -/
def query_samples_loop : List (String × String) → Net → Nat → TesterState → RunResult
  | [], _, _, st => RunResult.ok st
  | (query, description) :: rest, net, i, st =>
    let o := _make_request st.base_url "/api/v1/query" [("query", query)] [] none (net i)
    let success := o.succeeded
    let code := o.httpStatus
    let data := o.body
    if success && body_is_dict data && body_status_is_success data then
      match result_count_of data with
      | Except.ok result_count =>
        query_samples_loop rest net (i + 1)
          (_print_result st description true s!"{result_count} results")
      | Except.error m => RunResult.exn m st
    else
      query_samples_loop rest net (i + 1)
        (_print_result st description success s!"HTTP {code}")

/-- `PrometheusAuthTester.test_query_samples` (lines 158–181). -/
def test_query_samples (net : Net) (i : Nat) (st : TesterState) : RunResult :=
  let st := print_line st "\n5️⃣  Sample Query Tests"
  let st := print_line st (repeat_char '-' 25)
  query_samples_loop queries net i st

/-- `PrometheusAuthTester.show_python_examples` (lines 183–231): prints a
static, informational example block and records no assertions.  The literal
Python snippet text is abbreviated to a placeholder entry; no claim depends
on its content. -/
def show_python_examples (st : TesterState) : TesterState :=
  let st := print_line st "\n💻 Python Authentication Examples"
  let st := print_line st (repeat_char '=' 40)
  print_line st "<static Python authentication example snippets>"

/-- Python truthiness of `os.environ.get(...)`: `None` and the empty string
are falsy, any other string is truthy. -/
def truthy (o : Option String) : Bool :=
  match o with
  | none => false
  | some s => s != ""

/-- Lines 242–248 of `run_all_tests`: run the bearer-token group iff
`PROM_BEARER_TOKEN` is truthy, else print the skip notice.  Returns the new
state and the index of the next oracle request (requests 0–2 belong to
`test_no_auth`). -/
def bearer_section (env : Env) (net : Net) (st : TesterState) : TesterState × Nat :=
  let bearer_token := env "PROM_BEARER_TOKEN"
  if truthy bearer_token then
    (test_bearer_token (bearer_token.getD "") (net 3) (net 4) st, 5)
  else
    (print_line (print_line st "\n2️⃣  Bearer Token Test - ⚠️  SKIPPED")
       "   Set PROM_BEARER_TOKEN environment variable to test", 3)

/-- Lines 250–257 of `run_all_tests`: run the basic-auth group iff both
`PROM_BASIC_USER` and `PROM_BASIC_PASS` are truthy, else print the skip
notice. -/
def basic_section (env : Env) (net : Net) (st : TesterState) (i : Nat) :
    TesterState × Nat :=
  let basic_user := env "PROM_BASIC_USER"
  let basic_pass := env "PROM_BASIC_PASS"
  if truthy basic_user && truthy basic_pass then
    (test_basic_auth (basic_user.getD "") (basic_pass.getD "") (net i) (net (i + 1)) st,
     i + 2)
  else
    (print_line (print_line st "\n3️⃣  Basic Auth Test - ⚠️  SKIPPED")
       "   Set PROM_BASIC_USER and PROM_BASIC_PASS to test", i)

/-- Lines 259–265 of `run_all_tests`: run the API-token group iff
`PROM_API_TOKEN` is truthy, else print the skip notice. -/
def api_section (env : Env) (net : Net) (st : TesterState) (i : Nat) :
    TesterState × Nat :=
  let api_token := env "PROM_API_TOKEN"
  if truthy api_token then
    (test_api_token (api_token.getD "") (net i) (net (i + 1)) st, i + 2)
  else
    (print_line (print_line st "\n4️⃣  API Token Test - ⚠️  SKIPPED")
       "   Set PROM_API_TOKEN environment variable to test", i)

/-- Lines 235–265 of `run_all_tests`: the header prints, the unconditional
no-auth group, and the three gated credential sections, returning the state so
far and the index of the next oracle request.  No statement in this prefix can
raise. -/
def pre_sections (env : Env) (net : Net) (st : TesterState) : TesterState × Nat :=
  let base := st.base_url
  let st := print_line st "🔐 Prometheus Authentication Test"
  let st := print_line st s!"Target: {base}"
  let st := print_line st (repeat_char '=' 50)
  let st := test_no_auth (net 0) (net 1) (net 2) st
  let p1 := bearer_section env net st
  let p2 := basic_section env net p1.1 p1.2
  api_section env net p2.1 p2.2

/-- Lines 270–279 of `run_all_tests`, applied to the outcome of the sample
query group: an exception raised there propagates (the example block, the
summary and the `return` never execute); on normal completion the example
block and summary print and `self.tests_failed == 0` is returned. -/
def run_epilogue (rr : RunResult) : RunOutcome :=
  match rr with
  | RunResult.exn m st => RunOutcome.exn m st
  | RunResult.ok st =>
    let st := show_python_examples st
    let passed := st.tests_passed
    let failed := st.tests_failed
    let st := print_line st "\n📊 Test Summary"
    let st := print_line st (repeat_char '=' 20)
    let st := print_line st s!"Tests Passed: {passed}"
    let st := print_line st s!"Tests Failed: {failed}"
    RunOutcome.ok st (st.tests_failed == 0)

/-- `PrometheusAuthTester.run_all_tests` (lines 233–279): header, the five test
groups in order with the credential gates, the example block, the summary, and
the returned value `self.tests_failed == 0` (line 279); an uncaught exception
from the sample-query group aborts the method instead. -/
def run_all_tests (env : Env) (net : Net) (st : TesterState) : RunOutcome :=
  let p3 := pre_sections env net st
  run_epilogue (test_query_samples net p3.2 p3.1)

/-- `main` (lines 282–304): build the tester from the CLI URL and verbosity,
run all tests, and exit with `0 if success else 1` (line 304); when
`run_all_tests` raises, the interpreter prints the traceback and the process
exits with code 1. -/
def main_exit (env : Env) (net : Net) (url : String) (verbose : Bool) : Nat :=
  let tester := init_tester url verbose
  match run_all_tests env net tester with
  | RunOutcome.ok _ success => if success then 0 else 1
  | RunOutcome.exn _ _ => 1

/-!
Specification-side observables: the pair of counters, and the list of success
booleans handed to `_print_result` over a run (the assertion trace).
-/

/-- The counter pair `(tests_passed, tests_failed)` of a state. -/
def counters (st : TesterState) : Nat × Nat :=
  (st.tests_passed, st.tests_failed)

/-- The effect of recording one assertion on the counter pair. -/
def count_step (c : Nat × Nat) (b : Bool) : Nat × Nat :=
  if b then (c.1 + 1, c.2) else (c.1, c.2 + 1)

/-- The effect of recording a list of assertions, in order. -/
def count_fold (c : Nat × Nat) (l : List Bool) : Nat × Nat :=
  l.foldl count_step c

/-- The outcome of a request is independent of URL, params, headers and auth;
`outcome_of` names the classification of an oracle answer. -/
def outcome_of (r : HttpResult) : RequestOutcome :=
  _make_request "" "" [] [] none r

/-- The `expected` expression of the invalid-credential assertions
(lines 113, 134, 155): `success if code == 200 else not success`. -/
def invalid_expected (o : RequestOutcome) : Bool :=
  if o.httpStatus == 200 then o.succeeded else !o.succeeded

/-- The three success booleans recorded by `test_no_auth`. -/
def no_auth_successes (r1 r2 r3 : HttpResult) : List Bool :=
  [(outcome_of r1).succeeded, (outcome_of r2).succeeded, (outcome_of r3).succeeded]

/-- The two success booleans recorded by each credential group (bearer, basic,
API token): the valid probe's success flag, then the conditional expectation
for the invalid probe. -/
def pair_successes (r1 r2 : HttpResult) : List Bool :=
  [(outcome_of r1).succeeded, invalid_expected (outcome_of r2)]

/-- The success booleans actually recorded by `query_samples_loop` from oracle
index `i`, in order.  A raise at line 178 truncates the trace: the raising
query records nothing, and later queries are never issued. -/
def loop_trace : List (String × String) → Net → Nat → List Bool
  | [], _, _ => []
  | _ :: rest, net, i =>
    let o := outcome_of (net i)
    if o.succeeded && body_is_dict o.body && body_status_is_success o.body then
      match result_count_of o.body with
      | Except.ok _ => true :: loop_trace rest net (i + 1)
      | Except.error _ => []
    else
      o.succeeded :: loop_trace rest net (i + 1)

/-- The executed assertion trace of `run_all_tests`: every success boolean
actually handed to `_print_result`, in execution order, as a function of the
environment and the network oracle.  Skipped groups contribute nothing, and a
raise in the sample-query group truncates the trace there. -/
def run_trace (env : Env) (net : Net) : List Bool :=
  let b := truthy (env "PROM_BEARER_TOKEN")
  let u := truthy (env "PROM_BASIC_USER") && truthy (env "PROM_BASIC_PASS")
  let a := truthy (env "PROM_API_TOKEN")
  let i1 := if b then 5 else 3
  let i2 := if u then i1 + 2 else i1
  no_auth_successes (net 0) (net 1) (net 2)
    ++ (if b then pair_successes (net 3) (net 4) else [])
    ++ (if u then pair_successes (net i1) (net (i1 + 1)) else [])
    ++ (if a then pair_successes (net i2) (net (i2 + 1)) else [])
    ++ loop_trace queries net (if a then i2 + 2 else i2)

/-- The oracle index of the first sample-query request: 3 no-auth requests
plus 2 per enabled credential group. -/
def sample_start (env : Env) : Nat :=
  let b := truthy (env "PROM_BEARER_TOKEN")
  let u := truthy (env "PROM_BASIC_USER") && truthy (env "PROM_BASIC_PASS")
  let a := truthy (env "PROM_API_TOKEN")
  let i1 := if b then 5 else 3
  let i2 := if u then i1 + 2 else i1
  if a then i2 + 2 else i2

/-- The number of assertions a crash-free run executes: 3 unconditional
no-auth probes, 2 per enabled credential group, 4 sample queries.  A run that
raises in the sample-query group executes fewer. -/
def num_assertions (env : Env) : Nat :=
  3 + (if truthy (env "PROM_BEARER_TOKEN") then 2 else 0)
    + (if truthy (env "PROM_BASIC_USER") && truthy (env "PROM_BASIC_PASS") then 2 else 0)
    + (if truthy (env "PROM_API_TOKEN") then 2 else 0)
    + 4

/-- The environment with no variables set, and a network oracle whose every
response is HTTP 200 with the JSON body `{"status": "success", "data": null}`:
a well-formed status envelope whose data field is not a dict.  On it line 178
raises `AttributeError` (`None` has no `.get`), so the first sample query
aborts the run. -/
def env_empty : Env := fun _ => none

/-- The 200 response body `{"status": "success", "data": null}`. -/
def null_data_json : JValue :=
  JValue.obj [("status", JValue.str "success"), ("data", JValue.null)]

/-- The oracle answering every request with the `null_data_json` 200 response. -/
def net_null_data : Net := fun _ => HttpResult.resp 200 "raw" (some null_data_json)

/-!
Helper lemmas about counters, traces and folds.
-/

theorem counters_print_line (st : TesterState) (s : String) :
    counters (print_line st s) = counters st := rfl

theorem print_line_passed (st : TesterState) (s : String) :
    (print_line st s).tests_passed = st.tests_passed := rfl

theorem print_line_failed (st : TesterState) (s : String) :
    (print_line st s).tests_failed = st.tests_failed := rfl

theorem print_line_output (st : TesterState) (s : String) :
    (print_line st s).output = st.output ++ [s] := rfl

theorem counters_ite_print (c : Prop) [Decidable c] (x : TesterState) (s : String) :
    counters (if c then print_line x s else x) = counters x := by
  split <;> rfl

theorem counters_print_result (st : TesterState) (n : String) (s : Bool) (d : String) :
    counters (_print_result st n s d) = count_step (counters st) s := by
  unfold _print_result
  cases s <;> simp only [if_true, if_false, Bool.false_eq_true, reduceIte] <;>
    rw [counters_ite_print] <;> rfl

theorem base_url_print_result (st : TesterState) (n : String) (s : Bool) (d : String) :
    (_print_result st n s d).base_url = st.base_url := by
  unfold _print_result
  cases s <;> simp only [if_true, if_false, Bool.false_eq_true, reduceIte] <;>
    split <;> rfl

theorem output_print_result (st : TesterState) (n : String) (s : Bool) (d : String) :
    ∃ l, (_print_result st n s d).output = st.output ++ l := by
  unfold _print_result
  cases s <;> simp only [if_true, if_false, Bool.false_eq_true, reduceIte] <;>
    split <;> simp [print_line]

theorem make_request_eq_outcome_of (b e : String) (p h : List (String × String))
    (a : Option HTTPBasicAuth) (r : HttpResult) :
    _make_request b e p h a r = outcome_of r := rfl

theorem count_fold_nil (c : Nat × Nat) : count_fold c [] = c := rfl

theorem count_fold_cons (c : Nat × Nat) (b : Bool) (l : List Bool) :
    count_fold c (b :: l) = count_fold (count_step c b) l := rfl

theorem count_fold_append (c : Nat × Nat) (l1 l2 : List Bool) :
    count_fold c (l1 ++ l2) = count_fold (count_fold c l1) l2 := by
  simp [count_fold, List.foldl_append]

theorem count_fold_sum (l : List Bool) (c : Nat × Nat) :
    (count_fold c l).1 + (count_fold c l).2 = c.1 + c.2 + l.length := by
  induction l generalizing c with
  | nil => simp [count_fold]
  | cons b t ih =>
    rw [count_fold_cons, ih]
    cases b <;> simp [count_step] <;> omega

theorem count_fold_snd (l : List Bool) (c : Nat × Nat) :
    (count_fold c l).2 = c.2 + l.count false := by
  induction l generalizing c with
  | nil => simp [count_fold]
  | cons b t ih =>
    rw [count_fold_cons, ih]
    cases b <;> simp [count_step, List.count_cons] <;> omega

theorem counters_test_no_auth (r1 r2 r3 : HttpResult) (st : TesterState) :
    counters (test_no_auth r1 r2 r3 st)
      = count_fold (counters st) (no_auth_successes r1 r2 r3) := by
  simp only [test_no_auth, no_auth_successes, make_request_eq_outcome_of,
    count_fold, List.foldl, counters_print_result, counters_print_line]

theorem counters_test_bearer_token (t : String) (r1 r2 : HttpResult) (st : TesterState) :
    counters (test_bearer_token t r1 r2 st)
      = count_fold (counters st) (pair_successes r1 r2) := by
  simp only [test_bearer_token, pair_successes, invalid_expected,
    make_request_eq_outcome_of, count_fold, List.foldl, counters_print_result,
    counters_print_line]

theorem counters_test_basic_auth (u p : String) (r1 r2 : HttpResult) (st : TesterState) :
    counters (test_basic_auth u p r1 r2 st)
      = count_fold (counters st) (pair_successes r1 r2) := by
  simp only [test_basic_auth, pair_successes, invalid_expected,
    make_request_eq_outcome_of, count_fold, List.foldl, counters_print_result,
    counters_print_line]

theorem counters_test_api_token (t : String) (r1 r2 : HttpResult) (st : TesterState) :
    counters (test_api_token t r1 r2 st)
      = count_fold (counters st) (pair_successes r1 r2) := by
  simp only [test_api_token, pair_successes, invalid_expected,
    make_request_eq_outcome_of, count_fold, List.foldl, counters_print_result,
    counters_print_line]

theorem counters_query_loop (qs : List (String × String)) (net : Net) (i : Nat)
    (st : TesterState) :
    counters (query_samples_loop qs net i st).state
      = count_fold (counters st) (loop_trace qs net i) := by
  induction qs generalizing i st with
  | nil => rfl
  | cons q rest ih =>
    obtain ⟨query, description⟩ := q
    simp only [query_samples_loop, loop_trace, make_request_eq_outcome_of]
    cases hc : (outcome_of (net i)).succeeded && body_is_dict (outcome_of (net i)).body
        && body_status_is_success (outcome_of (net i)).body
    · simp only [Bool.false_eq_true, reduceIte]
      rw [ih, count_fold_cons, counters_print_result]
    · simp only [reduceIte]
      cases hres : result_count_of (outcome_of (net i)).body with
      | ok n =>
        rw [ih, count_fold_cons, counters_print_result]
      | error m => rfl

theorem counters_test_query_samples (net : Net) (i : Nat) (st : TesterState) :
    counters (test_query_samples net i st).state
      = count_fold (counters st) (loop_trace queries net i) := by
  simp only [test_query_samples, counters_query_loop, counters_print_line]

theorem counters_show_python_examples (st : TesterState) :
    counters (show_python_examples st) = counters st := rfl

theorem counters_run_epilogue (rr : RunResult) :
    counters (run_epilogue rr).state = counters rr.state := by
  cases rr <;> rfl

theorem returned_run_epilogue (rr : RunResult) :
    (run_epilogue rr).returned = none
      ∨ (run_epilogue rr).returned
          = some ((run_epilogue rr).state.tests_failed == 0) := by
  cases rr with
  | exn m st => exact Or.inl rfl
  | ok st => exact Or.inr rfl

theorem bearer_section_counters (env : Env) (net : Net) (st : TesterState) :
    counters (bearer_section env net st).1
        = count_fold (counters st)
            (if truthy (env "PROM_BEARER_TOKEN") then pair_successes (net 3) (net 4) else [])
      ∧ (bearer_section env net st).2 = (if truthy (env "PROM_BEARER_TOKEN") then 5 else 3) := by
  unfold bearer_section
  cases hb : truthy (env "PROM_BEARER_TOKEN") <;>
    simp [hb, counters_test_bearer_token, counters_print_line, count_fold]

theorem basic_section_counters (env : Env) (net : Net) (st : TesterState) (i : Nat) :
    counters (basic_section env net st i).1
        = count_fold (counters st)
            (if truthy (env "PROM_BASIC_USER") && truthy (env "PROM_BASIC_PASS")
             then pair_successes (net i) (net (i + 1)) else [])
      ∧ (basic_section env net st i).2
        = (if truthy (env "PROM_BASIC_USER") && truthy (env "PROM_BASIC_PASS")
           then i + 2 else i) := by
  unfold basic_section
  cases hu : truthy (env "PROM_BASIC_USER") && truthy (env "PROM_BASIC_PASS") <;>
    simp [hu, counters_test_basic_auth, counters_print_line, count_fold]

theorem api_section_counters (env : Env) (net : Net) (st : TesterState) (i : Nat) :
    counters (api_section env net st i).1
        = count_fold (counters st)
            (if truthy (env "PROM_API_TOKEN")
             then pair_successes (net i) (net (i + 1)) else [])
      ∧ (api_section env net st i).2
        = (if truthy (env "PROM_API_TOKEN") then i + 2 else i) := by
  unfold api_section
  cases ha : truthy (env "PROM_API_TOKEN") <;>
    simp [ha, counters_test_api_token, counters_print_line, count_fold]

theorem counters_run_all (env : Env) (net : Net) (st : TesterState) :
    counters (run_all_tests env net st).state
      = count_fold (counters st) (run_trace env net) := by
  unfold run_all_tests pre_sections run_trace
  cases hb : truthy (env "PROM_BEARER_TOKEN") <;>
    cases hu : truthy (env "PROM_BASIC_USER") && truthy (env "PROM_BASIC_PASS") <;>
      cases ha : truthy (env "PROM_API_TOKEN") <;>
        simp [bearer_section, basic_section, api_section, hb, hu, ha,
          counters_test_no_auth, counters_test_bearer_token, counters_test_basic_auth,
          counters_test_api_token, counters_run_epilogue, counters_test_query_samples,
          counters_show_python_examples, counters_print_line, count_fold_append]

theorem run_all_returned (env : Env) (net : Net) (st : TesterState) :
    (run_all_tests env net st).returned = none
      ∨ (run_all_tests env net st).returned
          = some ((run_all_tests env net st).state.tests_failed == 0) := by
  unfold run_all_tests
  exact returned_run_epilogue _

theorem loop_trace_length_le (qs : List (String × String)) (net : Net) (i : Nat) :
    (loop_trace qs net i).length ≤ qs.length := by
  induction qs generalizing i with
  | nil => simp [loop_trace]
  | cons q rest ih =>
    simp only [loop_trace, List.length_cons]
    split
    · split
      · simpa using ih (i + 1)
      · simp
    · simpa using ih (i + 1)

theorem run_trace_length_eq (env : Env) (net : Net) :
    (run_trace env net).length + 4
      = num_assertions env + (loop_trace queries net (sample_start env)).length := by
  unfold run_trace num_assertions sample_start
  cases hb : truthy (env "PROM_BEARER_TOKEN") <;>
    cases hu : truthy (env "PROM_BASIC_USER") && truthy (env "PROM_BASIC_PASS") <;>
      cases ha : truthy (env "PROM_API_TOKEN") <;>
        simp [hb, hu, ha, no_auth_successes, pair_successes] <;> omega

theorem run_trace_length_le (env : Env) (net : Net) :
    (run_trace env net).length ≤ num_assertions env := by
  have h1 := run_trace_length_eq env net
  have h2 : (loop_trace queries net (sample_start env)).length ≤ 4 := by
    simpa [queries] using loop_trace_length_le queries net (sample_start env)
  omega

theorem all_true_iff_count_false (l : List Bool) :
    l.count false = 0 ↔ ∀ b ∈ l, b = true := by
  rw [List.count_eq_zero]
  constructor
  · intro h b hb
    cases b
    · exact absurd hb h
    · rfl
  · intro h hf
    exact Bool.false_ne_true (h false hf)

theorem invalid_expected_outcome (r : HttpResult) :
    invalid_expected (outcome_of r) = true := by
  cases r with
  | exn m => rfl
  | resp status text parsed =>
    unfold outcome_of _make_request invalid_expected
    cases h200 : status == 200 <;> cases parsed <;> simp [h200]

theorem succeeded_of_dict (r : HttpResult) :
    body_is_dict (outcome_of r).body = true → (outcome_of r).succeeded = true := by
  cases r with
  | exn m => intro h; exact absurd h (by simp [outcome_of, _make_request, body_is_dict])
  | resp status text parsed =>
    unfold outcome_of _make_request
    cases h200 : status == 200 <;> cases parsed <;> simp [h200, body_is_dict]

theorem outcome_exn_httpStatus (m : String) : (outcome_of (HttpResult.exn m)).httpStatus = 0 :=
  rfl

theorem succeeded_eq_status_beq (r : HttpResult) :
    (outcome_of r).succeeded = ((outcome_of r).httpStatus == 200) := by
  cases r with
  | exn m => rfl
  | resp status text parsed =>
    unfold outcome_of _make_request
    cases h200 : status == 200 <;> cases parsed <;> simp [h200]

theorem rstrip_slash_append_slash (X : String) :
    rstrip_slash (X ++ "/") = rstrip_slash X := by
  unfold rstrip_slash
  have hdata : (X ++ "/").data = X.data ++ ['/'] := rfl
  rw [hdata, List.reverse_append]
  simp [List.dropWhile]

theorem sum_counters_of_eq {st2 st : TesterState} {l : List Bool}
    (h : counters st2 = count_fold (counters st) l) :
    st2.tests_passed + st2.tests_failed
      = st.tests_passed + st.tests_failed + l.length := by
  have h1 := congrArg Prod.fst h
  have h2 := congrArg Prod.snd h
  have hs := count_fold_sum l (counters st)
  simp only [counters] at h1 h2 hs
  omega

theorem failed_after_pair (c : Nat × Nat) (r1 r2 : HttpResult) :
    (count_fold c (pair_successes r1 r2)).2
      = c.2 + (if (outcome_of r1).succeeded then 0 else 1) := by
  simp only [pair_successes, count_fold, List.foldl, invalid_expected_outcome r2]
  cases (outcome_of r1).succeeded <;> simp [count_step]

/-!
The claims.
-/

/-- C1: `_make_request` classifies every call outcome as the spec states: HTTP
200 with a parseable body gives `succeeded = true` with the parsed data; HTTP
200 with an unparseable body gives `succeeded = true` with the raw text; any
non-200 status gives `succeeded = false` with the raw text; a transport-level
request exception gives `succeeded = false`, `httpStatus = 0`, and the
exception message as the body. -/
theorem make_request_classification
    (b e : String) (ps hs2 : List (String × String)) (a : Option HTTPBasicAuth)
    (status : Nat) (text : String) (parsed : Option JValue) (d : JValue) (msg : String) :
    _make_request b e ps hs2 a (HttpResult.resp 200 text (some d))
        = { succeeded := true, httpStatus := 200, body := Body.data d }
  ∧ _make_request b e ps hs2 a (HttpResult.resp 200 text none)
        = { succeeded := true, httpStatus := 200, body := Body.text text }
  ∧ (status ≠ 200 →
      _make_request b e ps hs2 a (HttpResult.resp status text parsed)
        = { succeeded := false, httpStatus := status, body := Body.text text })
  ∧ _make_request b e ps hs2 a (HttpResult.exn msg)
        = { succeeded := false, httpStatus := 0, body := Body.text msg } := by
  refine ⟨rfl, rfl, ?_, rfl⟩
  intro h
  simp [_make_request, h]

/-- Witness for C1 at concrete inputs (non-200 branch at status 404). -/
theorem make_request_classification_witness :
    _make_request "http://localhost:9090" "/metrics" [] [] none
        (HttpResult.resp 404 "not found" none)
      = { succeeded := false, httpStatus := 404, body := Body.text "not found" } :=
  (make_request_classification "http://localhost:9090" "/metrics" [] [] none
      404 "not found" none JValue.null "boom").2.2.1 (by decide)

theorem main_exit_eq (env : Env) (net : Net) (url : String) (v : Bool) :
    main_exit env net url v
      = if (run_all_tests env net (init_tester url v)).returned = some true then 0
        else 1 := by
  cases hrun : run_all_tests env net (init_tester url v) with
  | ok st2 b2 => cases b2 <;> simp [main_exit, hrun, RunOutcome.returned]
  | exn m st2 => simp [main_exit, hrun, RunOutcome.returned]

theorem run_failed_count (env : Env) (net : Net) (url : String) (v : Bool) :
    (run_all_tests env net (init_tester url v)).state.tests_failed
      = (run_trace env net).count false := by
  have hc := congrArg Prod.snd (counters_run_all env net (init_tester url v))
  have hinit : counters (init_tester url v) = (0, 0) := rfl
  rw [hinit, count_fold_snd] at hc
  simpa [counters] using hc

theorem run_returned_true_iff (env : Env) (net : Net) (url : String) (v : Bool) :
    ((run_all_tests env net (init_tester url v)).returned = some true)
      ↔ ((run_all_tests env net (init_tester url v)).returned ≠ none
          ∧ ∀ b2 ∈ run_trace env net, b2 = true) := by
  have h := run_all_returned env net (init_tester url v)
  have hfc := run_failed_count env net url v
  cases hrun : run_all_tests env net (init_tester url v) with
  | exn m st2 => simp [hrun, RunOutcome.returned]
  | ok st2 b2 =>
    rw [hrun] at h hfc
    simp only [RunOutcome.returned, RunOutcome.state] at h hfc
    have hb2 : b2 = (st2.tests_failed == 0) := by
      rcases h with h | h
      · exact absurd h (by simp)
      · exact Option.some.inj h
    subst hb2
    rw [hfc]
    simp [RunOutcome.returned, beq_iff_eq, all_true_iff_count_false]

/-- C2 (amended): when `run_all_tests` completes without an uncaught
exception, it returns true iff `tests_failed = 0`; the process exit code is 0
iff the run completed and returned true (1 otherwise), equivalently iff the
run completed and every executed assertion passed.  The original "exit code 0
iff all executed assertions passed" fails when the sample-query group raises
at line 178: the process then exits 1 via the interpreter traceback even
though every assertion executed before the raise passed (see the
counterexample). -/
theorem run_all_exit_code (env : Env) (net : Net) (url : String) (v : Bool) :
    ((run_all_tests env net (init_tester url v)).returned = none
      ∨ (run_all_tests env net (init_tester url v)).returned
          = some ((run_all_tests env net (init_tester url v)).state.tests_failed == 0))
  ∧ (main_exit env net url v
      = if (run_all_tests env net (init_tester url v)).returned = some true then 0
        else 1)
  ∧ (main_exit env net url v = 0
      ↔ ((run_all_tests env net (init_tester url v)).returned ≠ none
          ∧ ∀ b2 ∈ run_trace env net, b2 = true)) := by
  refine ⟨run_all_returned env net (init_tester url v), main_exit_eq env net url v, ?_⟩
  rw [main_exit_eq env net url v, ← run_returned_true_iff env net url v]
  split
  · simp [*]
  · simp [*]

/-- Counterexample to C2 as stated: with no environment variables and every
response `HTTP 200` with body `{"status": "success", "data": null}`, every
executed assertion passes (the three no-auth probes) and the failed counter is
0, yet the first sample query raises `AttributeError` at line 178 and the
process exits 1 — so exit code 0 does not hold whenever all executed
assertions passed. -/
theorem run_all_exit_code_cex :
    (∀ b2 ∈ run_trace env_empty net_null_data, b2 = true)
  ∧ (run_all_tests env_empty net_null_data
        (init_tester "http://localhost:9090" false)).state.tests_failed = 0
  ∧ (run_all_tests env_empty net_null_data
        (init_tester "http://localhost:9090" false)).returned = none
  ∧ main_exit env_empty net_null_data "http://localhost:9090" false = 1 := by
  exact ⟨by decide, rfl, rfl, rfl⟩

/-- C3: every `_print_result` call increments exactly one of the two counters:
`tests_passed` by one when `success` is true, `tests_failed` by one when it is
false, never both and never neither. -/
theorem print_result_increments (st : TesterState) (n : String) (s : Bool) (d : String) :
    (_print_result st n s d).tests_passed = st.tests_passed + (if s then 1 else 0)
  ∧ (_print_result st n s d).tests_failed = st.tests_failed + (if s then 0 else 1) := by
  have h1 := congrArg Prod.fst (counters_print_result st n s d)
  have h2 := congrArg Prod.snd (counters_print_result st n s d)
  cases s <;> simp only [counters, count_step] at h1 h2 <;> simp [h1, h2]

/-- C4: at every point in a run, `tests_passed + tests_failed` equals the
number of assertions actually executed so far: the counters of the state the
run ends in (final state, or the state at the raise when the sample-query
group aborts the run) are the fold of the executed assertion trace; their sum
is the number of executed assertions; every prefix of `k` executed assertions
sums to exactly that many; and the executed count never exceeds the
`num_assertions env` budget, in which skipped groups contribute zero. -/
theorem counters_equal_executed_assertions (env : Env) (net : Net) (url : String)
    (v : Bool) (k : Nat) :
    counters (run_all_tests env net (init_tester url v)).state
        = count_fold (0, 0) (run_trace env net)
  ∧ (run_all_tests env net (init_tester url v)).state.tests_passed
        + (run_all_tests env net (init_tester url v)).state.tests_failed
        = (run_trace env net).length
  ∧ (count_fold (0, 0) ((run_trace env net).take k)).1
        + (count_fold (0, 0) ((run_trace env net).take k)).2
        = min k (run_trace env net).length
  ∧ (run_trace env net).length ≤ num_assertions env := by
  have hc := counters_run_all env net (init_tester url v)
  have hinit : counters (init_tester url v) = (0, 0) := rfl
  rw [hinit] at hc
  refine ⟨hc, ?_, ?_, run_trace_length_le env net⟩
  · have h1 := congrArg Prod.fst hc
    have h2 := congrArg Prod.snd hc
    have hs := count_fold_sum (run_trace env net) (0, 0)
    simp only [counters] at h1 h2
    omega
  · have hs := count_fold_sum ((run_trace env net).take k) (0, 0)
    have hl : ((run_trace env net).take k).length
        = min k (run_trace env net).length := List.length_take _ _
    omega

/-- C5: each credential-gated group (bearer token, basic auth, API token) runs
iff every environment variable it requires is present and non-empty (Python
truthiness of `os.environ.get`); when it runs it records exactly two
assertions, and when it is skipped the skip notice is printed and neither
counter changes. -/
theorem credential_group_gating (env : Env) (net : Net) (st : TesterState) (i j : Nat) :
    (∀ x : Option String, truthy x = true ↔ ∃ s, x = some s ∧ s ≠ "")
  ∧ (if truthy (env "PROM_BEARER_TOKEN") then
        (bearer_section env net st).1
            = test_bearer_token ((env "PROM_BEARER_TOKEN").getD "") (net 3) (net 4) st
          ∧ (bearer_section env net st).1.tests_passed
              + (bearer_section env net st).1.tests_failed
            = st.tests_passed + st.tests_failed + 2
      else
        (bearer_section env net st).1.tests_passed = st.tests_passed
          ∧ (bearer_section env net st).1.tests_failed = st.tests_failed
          ∧ (bearer_section env net st).1.output
            = st.output ++ ["\n2️⃣  Bearer Token Test - ⚠️  SKIPPED",
                "   Set PROM_BEARER_TOKEN environment variable to test"])
  ∧ (if truthy (env "PROM_BASIC_USER") && truthy (env "PROM_BASIC_PASS") then
        (basic_section env net st i).1
            = test_basic_auth ((env "PROM_BASIC_USER").getD "")
                ((env "PROM_BASIC_PASS").getD "") (net i) (net (i + 1)) st
          ∧ (basic_section env net st i).1.tests_passed
              + (basic_section env net st i).1.tests_failed
            = st.tests_passed + st.tests_failed + 2
      else
        (basic_section env net st i).1.tests_passed = st.tests_passed
          ∧ (basic_section env net st i).1.tests_failed = st.tests_failed
          ∧ (basic_section env net st i).1.output
            = st.output ++ ["\n3️⃣  Basic Auth Test - ⚠️  SKIPPED",
                "   Set PROM_BASIC_USER and PROM_BASIC_PASS to test"])
  ∧ (if truthy (env "PROM_API_TOKEN") then
        (api_section env net st j).1
            = test_api_token ((env "PROM_API_TOKEN").getD "") (net j) (net (j + 1)) st
          ∧ (api_section env net st j).1.tests_passed
              + (api_section env net st j).1.tests_failed
            = st.tests_passed + st.tests_failed + 2
      else
        (api_section env net st j).1.tests_passed = st.tests_passed
          ∧ (api_section env net st j).1.tests_failed = st.tests_failed
          ∧ (api_section env net st j).1.output
            = st.output ++ ["\n4️⃣  API Token Test - ⚠️  SKIPPED",
                "   Set PROM_API_TOKEN environment variable to test"]) := by
  refine ⟨?_, ?_, ?_, ?_⟩
  · intro x
    cases x <;> simp [truthy]
  · cases hb : truthy (env "PROM_BEARER_TOKEN") <;>
      simp only [hb, if_true, if_false, Bool.false_eq_true, reduceIte]
    · simp [bearer_section, hb, print_line]
    · have hsec : (bearer_section env net st).1
          = test_bearer_token ((env "PROM_BEARER_TOKEN").getD "") (net 3) (net 4) st := by
        simp [bearer_section, hb]
      refine ⟨hsec, ?_⟩
      rw [hsec]
      have hsum := sum_counters_of_eq
        (counters_test_bearer_token ((env "PROM_BEARER_TOKEN").getD "") (net 3) (net 4) st)
      simpa [pair_successes] using hsum
  · cases hu : truthy (env "PROM_BASIC_USER") && truthy (env "PROM_BASIC_PASS") <;>
      simp only [hu, if_true, if_false, Bool.false_eq_true, reduceIte]
    · simp [basic_section, hu, print_line]
    · have hsec : (basic_section env net st i).1
          = test_basic_auth ((env "PROM_BASIC_USER").getD "")
              ((env "PROM_BASIC_PASS").getD "") (net i) (net (i + 1)) st := by
        simp [basic_section, hu]
      refine ⟨hsec, ?_⟩
      rw [hsec]
      have hsum := sum_counters_of_eq
        (counters_test_basic_auth ((env "PROM_BASIC_USER").getD "")
          ((env "PROM_BASIC_PASS").getD "") (net i) (net (i + 1)) st)
      simpa [pair_successes] using hsum
  · cases ha : truthy (env "PROM_API_TOKEN") <;>
      simp only [ha, if_true, if_false, Bool.false_eq_true, reduceIte]
    · simp [api_section, ha, print_line]
    · have hsec : (api_section env net st j).1
          = test_api_token ((env "PROM_API_TOKEN").getD "") (net j) (net (j + 1)) st := by
        simp [api_section, ha]
      refine ⟨hsec, ?_⟩
      rw [hsec]
      have hsum := sum_counters_of_eq
        (counters_test_api_token ((env "PROM_API_TOKEN").getD "") (net j) (net (j + 1)) st)
      simpa [pair_successes] using hsum

theorem query_loop_all_exn_ok (qs : List (String × String)) (msg : Nat → String)
    (i : Nat) (st : TesterState) :
    ∃ st2, query_samples_loop qs (fun j => HttpResult.exn (msg j)) i st
      = RunResult.ok st2 := by
  induction qs generalizing i st with
  | nil => exact ⟨st, rfl⟩
  | cons q rest ih =>
    obtain ⟨query, description⟩ := q
    simp only [query_samples_loop, make_request_eq_outcome_of]
    simp only [outcome_of, _make_request, body_is_dict, Bool.false_and, Bool.and_false]
    exact ih (i + 1) _

theorem test_query_samples_all_exn (msg : Nat → String) (i : Nat) (st : TesterState) :
    ∃ st2, test_query_samples (fun j => HttpResult.exn (msg j)) i st
      = RunResult.ok st2 := by
  unfold test_query_samples
  exact query_loop_all_exn_ok queries msg i _

theorem run_all_all_exn_ok (env : Env) (msg : Nat → String) (st : TesterState) :
    ∃ st2, run_all_tests env (fun j => HttpResult.exn (msg j)) st
      = RunOutcome.ok st2 (st2.tests_failed == 0) := by
  simp only [run_all_tests]
  obtain ⟨st2, h2⟩ := test_query_samples_all_exn msg
    (pre_sections env (fun j => HttpResult.exn (msg j)) st).2
    (pre_sections env (fun j => HttpResult.exn (msg j)) st).1
  rw [h2]
  exact ⟨_, rfl⟩

/-- C6: when the target server is unreachable (every request raises a
transport exception), every request classifies as `succeeded = false` with
`httpStatus = 0` and the exception message as the body; the run completes
normally (every exception is caught at lines 73–74, and the sample-query
group's line-178 raise is unreachable since no response body is a dict), so
`run_all_tests` returns false and the process exits with code 1. -/
theorem unreachable_server_run (env : Env) (url : String) (v : Bool)
    (msg : Nat → String) (b e : String) (ps hs2 : List (String × String))
    (a : Option HTTPBasicAuth) (k : Nat) :
    _make_request b e ps hs2 a (HttpResult.exn (msg k))
        = { succeeded := false, httpStatus := 0, body := Body.text (msg k) }
  ∧ (run_all_tests env (fun j => HttpResult.exn (msg j)) (init_tester url v)).returned
        = some false
  ∧ main_exit env (fun j => HttpResult.exn (msg j)) url v = 1 := by
  obtain ⟨st2, h2⟩ := run_all_all_exn_ok env msg (init_tester url v)
  have hfail : st2.tests_failed ≠ 0 := by
    have hc := congrArg Prod.snd
      (counters_run_all env (fun j => HttpResult.exn (msg j)) (init_tester url v))
    have hinit : counters (init_tester url v) = (0, 0) := rfl
    rw [hinit, count_fold_snd, h2] at hc
    simp only [counters, RunOutcome.state] at hc
    have htr : 3 ≤ (run_trace env (fun j => HttpResult.exn (msg j))).count false := by
      unfold run_trace
      simp only [List.count_append]
      have h3 : (no_auth_successes (HttpResult.exn (msg 0)) (HttpResult.exn (msg 1))
          (HttpResult.exn (msg 2))).count false = 3 := rfl
      simp only [h3]
      omega
    omega
  have hz : (st2.tests_failed == 0) = false := by
    simpa [beq_eq_false_iff_ne] using hfail
  refine ⟨rfl, ?_, ?_⟩
  · rw [h2, hz]
    rfl
  · simp [main_exit, h2, hz]

/-- C7 (amended): the sample-query group iterates over exactly the four fixed
PromQL queries, and each iteration behaves as follows.  When the response body
is structured data (a dict) whose status field equals "success", the code
evaluates the line-178 length expression: if the value under "data" is a dict
and its "result" value has a Python length (list, string or dict), the
assertion is recorded as passed reporting that length (the entry count for a
list); otherwise the expression raises an uncaught exception, recording no
assertion and aborting the run, so the remaining queries are never issued.
When the response is not a status-success dict, the assertion is recorded
with the request's succeeded flag, reporting the raw HTTP status.  The group
records at most 4 assertions, each adding exactly one to the counter sum
(the code's extra `success` conjunct in the guard is redundant, since only a
succeeded request can carry a dict body). -/
theorem sample_query_group (net : Net) (i : Nat) (st : TesterState)
    (q d : String) (rest : List (String × String)) (j : Nat) (st2 : TesterState) :
    queries = [("up", "Target status"),
        ("prometheus_build_info", "Prometheus build info"),
        ("rate(prometheus_http_requests_total[5m])", "HTTP request rate"),
        ("histogram_quantile(0.95, prometheus_http_request_duration_seconds_bucket)",
          "95th percentile latency")]
  ∧ (test_query_samples net i st).state.tests_passed
        + (test_query_samples net i st).state.tests_failed
      = st.tests_passed + st.tests_failed + (loop_trace queries net i).length
  ∧ (loop_trace queries net i).length ≤ 4
  ∧ py_len (JValue.arr [JValue.null, JValue.null]) = Except.ok 2
  ∧ query_samples_loop ((q, d) :: rest) net j st2
      = (let o := _make_request st2.base_url "/api/v1/query" [("query", q)] [] none (net j)
         let code := o.httpStatus
         if body_is_dict o.body && body_status_is_success o.body then
           match result_count_of o.body with
           | Except.ok result_count =>
             query_samples_loop rest net (j + 1)
               (_print_result st2 d true s!"{result_count} results")
           | Except.error m => RunResult.exn m st2
         else
           query_samples_loop rest net (j + 1)
             (_print_result st2 d o.succeeded s!"HTTP {code}")) := by
  refine ⟨rfl, ?_, ?_, rfl, ?_⟩
  · exact sum_counters_of_eq (counters_test_query_samples net i st)
  · simpa [queries] using loop_trace_length_le queries net i
  · have hcond : ((outcome_of (net j)).succeeded && body_is_dict (outcome_of (net j)).body
          && body_status_is_success (outcome_of (net j)).body)
        = (body_is_dict (outcome_of (net j)).body
          && body_status_is_success (outcome_of (net j)).body) := by
      cases hd : body_is_dict (outcome_of (net j)).body
      · simp [hd]
      · simp [hd, succeeded_of_dict (net j) hd]
    simp only [query_samples_loop, make_request_eq_outcome_of]
    rw [hcond]

/-- Counterexample to C7 as stated: with every response `HTTP 200` and body
`{"status": "success", "data": null}`, the first sample query satisfies the
status-success dict guard but line 178 raises `AttributeError` (null has no
`.get`), so the group records zero assertions instead of four, aborts at the
first query, and the run ends with only the 3 no-auth assertions counted. -/
theorem sample_query_group_cex :
    (loop_trace queries net_null_data 0).length = 0
  ∧ query_samples_loop queries net_null_data 0 (init_tester "u" false)
      = RunResult.exn "AttributeError: object has no attribute get"
          (init_tester "u" false)
  ∧ (run_all_tests env_empty net_null_data (init_tester "u" false)).state.tests_passed
        + (run_all_tests env_empty net_null_data
            (init_tester "u" false)).state.tests_failed
      = 3 := by
  exact ⟨rfl, rfl, rfl⟩

/-- C8: the full request URL is the configured base URL with trailing slashes
stripped, concatenated with the endpoint path; hence base URLs `X ++ "/"` and
`X` give identical request URLs for every endpoint. -/
theorem request_url_trailing_slash (X endpoint : String) (v : Bool) :
    request_url (init_tester X v) endpoint = rstrip_slash X ++ endpoint
  ∧ request_url (init_tester (X ++ "/") v) endpoint
      = request_url (init_tester X v) endpoint := by
  refine ⟨rfl, ?_⟩
  simp [request_url, init_tester, rstrip_slash_append_slash]

/-- C9: the conditional expectation of the invalid-credential assertions
(`success if code == 200 else not success`) evaluates to true on every outcome
`_make_request` can produce, so the second assertion of the bearer, basic and
API-token groups always records a pass: each group's failed counter can rise
by at most 1, and only from its valid-credential probe. -/
theorem invalid_credential_always_passes
    (b e : String) (ps hs2 : List (String × String)) (a : Option HTTPBasicAuth)
    (r r1 r2 : HttpResult) (t u p tok : String) (st1 st2 st3 : TesterState) :
    invalid_expected (_make_request b e ps hs2 a r) = true
  ∧ pair_successes r1 r2 = [(outcome_of r1).succeeded, true]
  ∧ (test_bearer_token t r1 r2 st1).tests_failed
      = st1.tests_failed + (if (outcome_of r1).succeeded then 0 else 1)
  ∧ (test_basic_auth u p r1 r2 st2).tests_failed
      = st2.tests_failed + (if (outcome_of r1).succeeded then 0 else 1)
  ∧ (test_api_token tok r1 r2 st3).tests_failed
      = st3.tests_failed + (if (outcome_of r1).succeeded then 0 else 1) := by
  refine ⟨invalid_expected_outcome r, ?_, ?_, ?_, ?_⟩
  · simp [pair_successes, invalid_expected_outcome r2]
  · have h := congrArg Prod.snd (counters_test_bearer_token t r1 r2 st1)
    rw [failed_after_pair] at h
    simpa [counters] using h
  · have h := congrArg Prod.snd (counters_test_basic_auth u p r1 r2 st2)
    rw [failed_after_pair] at h
    simpa [counters] using h
  · have h := congrArg Prod.snd (counters_test_api_token tok r1 r2 st3)
    rw [failed_after_pair] at h
    simpa [counters] using h

/-- C10: every outcome `_make_request` produces has `succeeded` true exactly
when `httpStatus` is 200 (as Bool equality and as a biconditional), and a
transport failure always yields `httpStatus = 0`, so `succeeded` is
recoverable from `httpStatus` alone. -/
theorem succeeded_iff_status_200
    (b e : String) (ps hs2 : List (String × String)) (a : Option HTTPBasicAuth)
    (r : HttpResult) (msg : String) :
    (_make_request b e ps hs2 a r).succeeded
        = ((_make_request b e ps hs2 a r).httpStatus == 200)
  ∧ ((_make_request b e ps hs2 a r).succeeded = true
        ↔ (_make_request b e ps hs2 a r).httpStatus = 200)
  ∧ (_make_request b e ps hs2 a (HttpResult.exn msg)).httpStatus = 0 := by
  refine ⟨succeeded_eq_status_beq r, ?_, rfl⟩
  rw [make_request_eq_outcome_of, succeeded_eq_status_beq r]
  exact beq_iff_eq
